import Mathlib

/-!
Shallow embedding of the `agent_api` Express service (src/index.js) and
verification of its specification claims.

The service exposes three HTTP endpoints:
* `POST /create-order`     — validates an amount and creates a payment-gateway order;
* `POST /verify-payment`   — checks an HMAC-SHA256 payment signature;
* `POST /agent_to_customer` — renders and sends an order-confirmation email.

Each handler is embedded as a pure Lean function over an explicit request
structure; the outbound collaborators (payment gateway, email transporter) are
passed in as function parameters, and every outcome records whether and with
what arguments the collaborator was invoked.  JavaScript `undefined` is
modelled with `Option`, JS truthiness of strings with emptiness, and the JS
string coercion of `undefined` (as produced by string concatenation and
template literals) with `jsStr`.

HMAC-SHA256 is implemented concretely (FIPS 180-4 / RFC 2104) over byte lists
so that signature checks evaluate on concrete inputs.
-/

set_option maxRecDepth 100000

/-! ## Bytes, words and UTF-8 -/

/-- Truncate to a 32-bit word, as all SHA-256 arithmetic is mod 2^32. -/
def w32 (n : Nat) : Nat := n % 4294967296

/-- Right rotation of a 32-bit word by `r` positions. -/
def rotr32 (r x : Nat) : Nat := w32 ((x >>> r) ||| (x <<< (32 - r)))

/-- Big-endian byte expansion of `n` on `k` bytes. -/
def natToBytesBE (k n : Nat) : List Nat :=
  (List.range k).map (fun i => (n >>> (8 * (k - 1 - i))) % 256)

/-- UTF-8 encoding of a single character (code point to bytes). -/
def utf8EncodeChar (c : Char) : List Nat :=
  let n := c.toNat
  if n < 128 then [n]
  else if n < 2048 then
    [192 ||| (n >>> 6), 128 ||| (n &&& 63)]
  else if n < 65536 then
    [224 ||| (n >>> 12), 128 ||| ((n >>> 6) &&& 63), 128 ||| (n &&& 63)]
  else
    [240 ||| (n >>> 18), 128 ||| ((n >>> 12) &&& 63),
     128 ||| ((n >>> 6) &&& 63), 128 ||| (n &&& 63)]

/-- The UTF-8 bytes of a string, as Node's `crypto.update` consumes it. -/
def strBytes (s : String) : List Nat :=
  (s.data.map utf8EncodeChar).flatten

/-! ## SHA-256 (FIPS 180-4) -/

/-- The SHA-256 round constants K (FIPS 180-4 section 4.2.2, in decimal). -/
def shaK : List Nat :=
  [1116352408, 1899447441, 3049323471, 3921009573, 961987163, 1508970993,
   2453635748, 2870763221, 3624381080, 310598401, 607225278, 1426881987,
   1925078388, 2162078206, 2614888103, 3248222580, 3835390401, 4022224774,
   264347078, 604807628, 770255983, 1249150122, 1555081692, 1996064986,
   2554220882, 2821834349, 2952996808, 3210313671, 3336571891, 3584528711,
   113926993, 338241895, 666307205, 773529912, 1294757372, 1396182291,
   1695183700, 1986661051, 2177026350, 2456956037, 2730485921, 2820302411,
   3259730800, 3345764771, 3516065817, 3600352804, 4094571909, 275423344,
   430227734, 506948616, 659060556, 883997877, 958139571, 1322822218,
   1537002063, 1747873779, 1955562222, 2024104815, 2227730452, 2361852424,
   2428436474, 2756734187, 3204031479, 3329325298]

/-- The SHA-256 initial hash value (FIPS 180-4 section 5.3.3, in decimal). -/
def shaH0 : List Nat :=
  [1779033703, 3144134277, 1013904242, 2773480762,
   1359893119, 2600822924, 528734635, 1541459225]

/-- Message padding: append `0x80`, zeros to 56 mod 64, then the bit length
on 8 big-endian bytes. -/
def shaPad (m : List Nat) : List Nat :=
  let len := m.length
  let zeros := (119 - len % 64) % 64
  m ++ [128] ++ List.replicate zeros 0 ++ natToBytesBE 8 (len * 8)

/-- Group bytes into big-endian 32-bit words. -/
def bytesToWords : List Nat → List Nat
  | a :: b :: c :: d :: rest =>
      (a * 16777216 + b * 65536 + c * 256 + d) :: bytesToWords rest
  | _ => []

/-- Split a word list into 16-word blocks; the fuel bounds the number of
blocks (each step consumes at least one word, so `ws.length` suffices). -/
def splitBlocksAux : Nat → List Nat → List (List Nat)
  | 0, _ => []
  | _ + 1, [] => []
  | n + 1, ws => ws.take 16 :: splitBlocksAux n (ws.drop 16)

/-- Split a word list into 16-word blocks. -/
def splitBlocks (ws : List Nat) : List (List Nat) :=
  splitBlocksAux ws.length ws

/-- Small sigma 0. -/
def ssig0 (x : Nat) : Nat := (rotr32 7 x) ^^^ (rotr32 18 x) ^^^ (x >>> 3)

/-- Small sigma 1. -/
def ssig1 (x : Nat) : Nat := (rotr32 17 x) ^^^ (rotr32 19 x) ^^^ (x >>> 10)

/-- Big sigma 0. -/
def bsig0 (x : Nat) : Nat := (rotr32 2 x) ^^^ (rotr32 13 x) ^^^ (rotr32 22 x)

/-- Big sigma 1. -/
def bsig1 (x : Nat) : Nat := (rotr32 6 x) ^^^ (rotr32 11 x) ^^^ (rotr32 25 x)

/-- Choice function. -/
def shaCh (e f g : Nat) : Nat := (e &&& f) ^^^ ((e ^^^ 4294967295) &&& g)

/-- Majority function. -/
def shaMaj (a b c : Nat) : Nat := (a &&& b) ^^^ (a &&& c) ^^^ (b &&& c)

/-- One step of the message-schedule extension: append word `w.length`. -/
def schedStep (w : List Nat) : List Nat :=
  let n := w.length
  w ++ [w32 (ssig1 (w.getD (n - 2) 0) + w.getD (n - 7) 0 +
             ssig0 (w.getD (n - 15) 0) + w.getD (n - 16) 0)]

/-- Extend a 16-word block to the 64-word message schedule. -/
def schedule (block : List Nat) : List Nat :=
  (List.range 48).foldl (fun acc _ => schedStep acc) block

/-- One SHA-256 round on the 8-word working state; `kw` is `K i + W i`. -/
def shaRound (st : List Nat) (kw : Nat) : List Nat :=
  match st with
  | [a, b, c, d, e, f, g, h] =>
      let t1 := w32 (h + bsig1 e + shaCh e f g + kw)
      let t2 := w32 (bsig0 a + shaMaj a b c)
      [w32 (t1 + t2), a, b, c, w32 (d + t1), e, f, g]
  | other => other

/-- Compress one 16-word block into the running hash. -/
def compressBlock (h : List Nat) (block : List Nat) : List Nat :=
  let w := schedule block
  let kws := (shaK.zip w).map (fun p => w32 (p.1 + p.2))
  let st := kws.foldl shaRound h
  (h.zip st).map (fun p => w32 (p.1 + p.2))

/-- SHA-256 digest of a byte list, as 32 bytes. -/
def sha256 (m : List Nat) : List Nat :=
  let blocks := splitBlocks (bytesToWords (shaPad m))
  ((blocks.foldl compressBlock shaH0).map (natToBytesBE 4)).flatten

/-- Lowercase hexadecimal digit. -/
def hexDigit (n : Nat) : Char :=
  if n < 10 then Char.ofNat (48 + n) else Char.ofNat (87 + n)

/-- Lowercase hexadecimal rendering of a byte list, as `digest("hex")`. -/
def bytesToHex (bs : List Nat) : String :=
  String.mk ((bs.map (fun b => [hexDigit (b / 16), hexDigit (b % 16)])).flatten)

/-! ## HMAC (RFC 2104) -/

/-- HMAC-SHA256 of `msg` under `key`, as 32 digest bytes. -/
def hmacSha256 (key msg : List Nat) : List Nat :=
  let k0 := if 64 < key.length then sha256 key else key
  let kp := k0 ++ List.replicate (64 - k0.length) 0
  let ipad := kp.map (fun b => b ^^^ 54)
  let opad := kp.map (fun b => b ^^^ 92)
  sha256 (opad ++ sha256 (ipad ++ msg))

/-- Lowercase hex HMAC-SHA256 of a string message under a string key:
the composite `crypto.createHmac("sha256", key).update(msg).digest("hex")`. -/
def hmacSha256Hex (key msg : String) : String :=
  bytesToHex (hmacSha256 (strBytes key) (strBytes msg))

/-! ## JavaScript value helpers

Request fields are modelled as `Option String`: `none` is a field absent from
the JSON body (JS `undefined`); claims never exercise non-string field values
beyond the amount, which gets its own type below. -/

/-- JS string coercion of a possibly-undefined value, as performed by string
concatenation and template literals: `undefined` renders as "undefined". -/
def jsStr : Option String → String
  | some s => s
  | none => "undefined"

/-- JS truthiness of a possibly-undefined string: `undefined` and the empty
string are falsy, any other string is truthy. -/
def jsTruthy : Option String → Bool
  | some s => s != ""
  | none => false

/-- JS `v || dflt` on a possibly-undefined string. -/
def jsOr (v : Option String) (dflt : String) : String :=
  if jsTruthy v then jsStr v else dflt

/-! ## POST /verify-payment (src/index.js lines 146-186)

The handler destructures `razorpay_order_id`, `razorpay_payment_id` and
`razorpay_signature` from the body, computes
`crypto.createHmac("sha256", RAZORPAY_KEY_SECRET).update(orderId + "|" + paymentId).digest("hex")`
and compares it to the supplied signature with `===`.  The key secret is the
configured shared secret (a string); with a string key and string update the
handler body cannot throw, so the catch branch (HTTP 500) is unreachable and
the embedding returns a plain response. -/

structure VerifyReq where
  razorpay_order_id : Option String
  razorpay_payment_id : Option String
  razorpay_signature : Option String
deriving DecidableEq

/-- JSON response of the verify-payment handler, with its HTTP status. -/
structure VerifyResp where
  status : Nat
  success : Bool
  message : String
  orderId : Option String := none
  paymentId : Option String := none
deriving DecidableEq

/-- The verify-payment handler.  `===` between the computed digest (a string)
and a possibly-undefined supplied signature is false when the signature is
absent, which `Option` equality against `some` captures. -/
def verifyPayment (keySecret : String) (req : VerifyReq) : VerifyResp :=
  let sign := jsStr req.razorpay_order_id ++ "|" ++ jsStr req.razorpay_payment_id
  let expectedSignature := hmacSha256Hex keySecret sign
  let isAuthentic := req.razorpay_signature == some expectedSignature
  if isAuthentic then
    { status := 200, success := true, message := "Payment verification successful",
      orderId := req.razorpay_order_id, paymentId := req.razorpay_payment_id }
  else
    { status := 400, success := false, message := "Payment verification failed" }

/-! ## POST /create-order (src/index.js lines 56-143) -/

/-- The `amount` field of a create-order body, split by how the JS checks
`!amount`, `isNaN(amount)`, `amount <= 0` and `parseFloat(amount)` treat it.
`numStr` carries both the `Number` coercion (used by `isNaN` and `<=`) and
the `parseFloat` value, which differ on strings such as hex literals. -/
inductive JsAmount
  | undef
  | num (q : ℚ)
  | numStr (numberVal parseFloatVal : ℚ)
  | nanStr
  | emptyStr
deriving DecidableEq

/-- JS truthiness of the amount: `undefined`, the number 0 and the empty
string are falsy; nonempty strings (numeric or not) and nonzero numbers are
truthy. -/
def JsAmount.truthy : JsAmount → Bool
  | .undef => false
  | .num q => q != 0
  | .numStr _ _ => true
  | .nanStr => true
  | .emptyStr => false

/-- JS global `isNaN` on the amount, which coerces with `Number`:
`Number(undefined)` is NaN, `Number("")` is 0, non-numeric strings are NaN. -/
def JsAmount.isNaNB : JsAmount → Bool
  | .undef => true
  | .num _ => false
  | .numStr _ _ => false
  | .nanStr => true
  | .emptyStr => false

/-- JS `amount <= 0`: comparison coerces with `Number`; comparisons against
NaN are false. -/
def JsAmount.leZero : JsAmount → Bool
  | .undef => false
  | .num q => decide (q ≤ 0)
  | .numStr nv _ => decide (nv ≤ 0)
  | .nanStr => false
  | .emptyStr => true

/-- JS `parseFloat(amount)`; only ever used on the accepted path, where the
amount is a number or a numeric string. -/
def JsAmount.parseFloatQ : JsAmount → ℚ
  | .num q => q
  | .numStr _ pf => pf
  | _ => 0

/-- The gateway credentials from the environment; `none` is an unset
variable. -/
structure Env where
  razorpayKeyId : Option String
  razorpayKeySecret : Option String
deriving DecidableEq

/-- A create-order request body.  `notes` and `otherKeys` record whether a
notes object, respectively any further key, is present: they only matter to
the `Object.keys(req.body).length === 0` emptiness check and the notes
pass-through. -/
structure CreateOrderReq where
  amount : JsAmount
  currency : Option String := none
  receipt : Option String := none
  notes : Bool := false
  otherKeys : Bool := false
deriving DecidableEq

/-- `Object.keys(req.body).length === 0`: the body is empty iff no field is
present. -/
def CreateOrderReq.bodyEmpty (r : CreateOrderReq) : Bool :=
  (match r.amount with | .undef => true | _ => false)
    && r.currency.isNone && r.receipt.isNone && !r.notes && !r.otherKeys

/-- The options object passed to `razorpay.orders.create`. -/
structure GatewayOptions where
  amount : ℤ
  currency : String
  receipt : String
  notesProvided : Bool
deriving DecidableEq

/-- The order object the gateway returns; pass-through data. -/
structure GatewayOrder where
  id : String
  amount : ℤ
deriving DecidableEq

/-- Outcome of the create-order handler: the JSON response plus a record of
the gateway invocation (`none` when `razorpay.orders.create` was never
called, `some opts` when it was called with `opts`). -/
structure CreateOrderOutcome where
  status : Nat
  success : Bool
  message : String
  error : Option String := none
  gatewayCall : Option GatewayOptions := none
  order : Option GatewayOrder := none
  key : Option String := none
deriving DecidableEq

/-- The create-order handler.  `now` stands for `Date.now()` in the default
receipt; `gw` is `razorpay.orders.create`, whose rejection is caught and
mapped to HTTP 500.  `Math.round` is round-half-up, which is Mathlib
`round` (`⌊x + 1/2⌋`). -/
def createOrder (env : Env) (now : Nat)
    (gw : GatewayOptions → Except String GatewayOrder)
    (req : CreateOrderReq) : CreateOrderOutcome :=
  if !jsTruthy env.razorpayKeyId || !jsTruthy env.razorpayKeySecret then
    { status := 500, success := false, message := "Razorpay configuration error",
      error := some "Missing credentials" }
  else if req.bodyEmpty then
    { status := 400, success := false, message := "Invalid request",
      error := some "Request body is empty" }
  else if !req.amount.truthy || req.amount.isNaNB || req.amount.leZero then
    { status := 400, success := false, message := "Invalid amount",
      error := some "Amount must be a positive number" }
  else
    let parsedAmount := req.amount.parseFloatQ
    let options : GatewayOptions :=
      { amount := round (parsedAmount * 100),
        currency := (req.currency.getD "INR"),
        receipt := (req.receipt.getD ("receipt_" ++ toString now)),
        notesProvided := req.notes }
    match gw options with
    | .ok order =>
        { status := 200, success := true, message := "",
          gatewayCall := some options, order := some order,
          key := env.razorpayKeyId }
    | .error e =>
        { status := 500, success := false, message := "Failed to create order",
          error := some e, gatewayCall := some options }

/-! ## POST /agent_to_customer (src/index.js lines 190-300)

The handler reads `orderDetails.orderNumber` for the subject and
`customerDetails.firstName` inside the template before any try block; when
either object is absent from the body that access raises a `TypeError` which
no surrounding catch intercepts, so the embedding returns `Except` with the
escaped error.  Only the `transporter.sendMail` call sits inside a
try/catch. -/

structure OrderDetails where
  orderNumber : Option String := none
  totalAmount : Option String := none
  Advance_Amount : Option String := none
  currency : Option String := none
  paymentMethod : Option String := none
  agentName : Option String := none
deriving DecidableEq

structure CustomerDetails where
  firstName : Option String := none
deriving DecidableEq

structure ConfirmReq where
  customerEmail : Option String := none
  orderDetails : Option OrderDetails := none
  customerDetails : Option CustomerDetails := none
  productName : Option String := none
  agentName : Option String := none
deriving DecidableEq

/-- Source line 208:
`(orderDetails && orderDetails.agentName) || agentName || 'Call Center Agent'`.
Truthiness, not mere presence, selects each alternative. -/
def resolvedAgentName (orderDetails : Option OrderDetails)
    (agentName : Option String) : String :=
  match orderDetails with
  | some od =>
      if jsTruthy od.agentName then jsStr od.agentName
      else if jsTruthy agentName then jsStr agentName
      else "Call Center Agent"
  | none =>
      if jsTruthy agentName then jsStr agentName
      else "Call Center Agent"

/-- The dynamic interpolations of the HTML email template, in source order;
the surrounding static markup is elided (it carries no request data). -/
def renderConfirmationHtml (cd : CustomerDetails) (od : OrderDetails)
    (resolvedAgent productName : String) : String :=
  "Hello " ++ jsStr cd.firstName ++
  "! Order Number: #" ++ jsStr od.orderNumber ++
  " Total Amount: " ++ jsOr od.currency "₹" ++ " " ++ jsStr od.totalAmount ++
  " Advance Paid: " ++ jsOr od.currency "₹" ++ " " ++ jsStr od.Advance_Amount ++
  " Payment Method: " ++ jsStr od.paymentMethod ++
  " Agent Name: " ++ resolvedAgent ++
  " Product: " ++ productName

/-- The object handed to `transporter.sendMail` (`from` and `to` are Lean
keywords, hence `fromAddr` and `toAddr`). -/
structure MailOptions where
  fromAddr : Option String
  toAddr : String
  cc : Option String
  subject : String
  html : String
deriving DecidableEq

/-- Result of the `transporter.sendMail` call: resolves with an info object
carrying `messageId`, or rejects with an error message. -/
inductive MailResult
  | ok (messageId : String)
  | err (message : String)
deriving DecidableEq

/-- An exception escaping the handler uncaught. -/
inductive JsError
  | typeError (detail : String)
deriving DecidableEq

/-- Outcome of the order-confirmation handler: the JSON response plus a
record of the email attempt (`none` when `sendMail` was never invoked). -/
structure ConfirmOutcome where
  status : Nat
  success : Bool
  message : String
  error : Option String := none
  mailAttempt : Option MailOptions := none
deriving DecidableEq

/-- The order-confirmation handler.  `emailUser` is `process.env.EMAIL_USER`;
`sendMail` is `transporter.sendMail`. -/
def agentToCustomer (emailUser : Option String)
    (sendMail : MailOptions → MailResult)
    (req : ConfirmReq) : Except JsError ConfirmOutcome :=
  if !jsTruthy req.customerEmail then
    .ok { status := 400, success := false, message := "Customer email is required" }
  else
    match req.orderDetails with
    | none => .error (.typeError "reading orderNumber of undefined orderDetails")
    | some od =>
      let emailSubject := "Order Confirmation #" ++ jsStr od.orderNumber
      let agent := resolvedAgentName (some od) req.agentName
      match req.customerDetails with
      | none => .error (.typeError "reading firstName of undefined customerDetails")
      | some cd =>
        let htmlContent := renderConfirmationHtml cd od agent (jsStr req.productName)
        let mailOptions : MailOptions :=
          { fromAddr := emailUser, toAddr := jsStr req.customerEmail,
            cc := emailUser, subject := emailSubject, html := htmlContent }
        match sendMail mailOptions with
        | .ok _ =>
            .ok { status := 200, success := true,
                  message := "Confirmation email sent successfully!",
                  mailAttempt := some mailOptions }
        | .err e =>
            .ok { status := 500, success := false,
                  message := "Failed to send confirmation email",
                  error := some e, mailAttempt := some mailOptions }

/-- A fully-populated order-confirmation request, used to evaluate the
handler on concrete input. -/
def sampleConfirmReq : ConfirmReq :=
  { customerEmail := some "cust@example.com",
    orderDetails := some
      { orderNumber := some "ON-1", totalAmount := some "999",
        Advance_Amount := some "100", currency := some "INR",
        paymentMethod := some "card", agentName := some "Alice" },
    customerDetails := some { firstName := some "Jo" },
    productName := some "Widget", agentName := some "Bob" }

/-! ## Claims about POST /verify-payment -/

/-- C1: for every verify-payment request with order id `o`, payment id `p` and
supplied signature `s`, and configured shared secret `S`, the handler returns
HTTP 200 iff `s` equals the lowercase hexadecimal HMAC-SHA256 digest of
`o + "|" + p` keyed with `S`; any other signature, including an absent one,
yields HTTP 400 with the success flag false. -/
theorem verifyPayment_accepts_iff_hmac (S : String) (req : VerifyReq) :
    ((verifyPayment S req).status = 200 ↔
      req.razorpay_signature =
        some (hmacSha256Hex S
          (jsStr req.razorpay_order_id ++ "|" ++ jsStr req.razorpay_payment_id)))
    ∧ (req.razorpay_signature ≠
        some (hmacSha256Hex S
          (jsStr req.razorpay_order_id ++ "|" ++ jsStr req.razorpay_payment_id)) →
        (verifyPayment S req).status = 400 ∧ (verifyPayment S req).success = false) := by
  by_cases h : req.razorpay_signature =
      some (hmacSha256Hex S
        (jsStr req.razorpay_order_id ++ "|" ++ jsStr req.razorpay_payment_id)) <;>
    simp [verifyPayment, h]

theorem verifyPayment_accepts_iff_hmac_witness :
    (verifyPayment "s3cr3t"
        ⟨some "order_1", some "pay_1",
         some "c4ba7785e595b717abd8b4847eaf30e97f23acbdbe1b8f5cbbf17d28d63b068f"⟩).status
      = 200 ∧
    (verifyPayment "s3cr3t" ⟨some "order_1", some "pay_1", some "forged"⟩).status = 400 := by
  refine ⟨(verifyPayment_accepts_iff_hmac "s3cr3t" _).1.mpr (by decide), ?_⟩
  exact ((verifyPayment_accepts_iff_hmac "s3cr3t" _).2 (by decide)).1

/-- C9: payment verification is deterministic — two requests with identical
order id, payment id and signature, under the same secret, produce the same
status code and success flag (indeed the same whole response). -/
theorem verifyPayment_deterministic (S : String) (r1 r2 : VerifyReq)
    (ho : r1.razorpay_order_id = r2.razorpay_order_id)
    (hp : r1.razorpay_payment_id = r2.razorpay_payment_id)
    (hs : r1.razorpay_signature = r2.razorpay_signature) :
    (verifyPayment S r1).status = (verifyPayment S r2).status ∧
    (verifyPayment S r1).success = (verifyPayment S r2).success := by
  have h : r1 = r2 := by cases r1; cases r2; simp_all
  rw [h]; exact ⟨rfl, rfl⟩

theorem verifyPayment_deterministic_witness :
    (verifyPayment "k" ⟨some "o", some "p", some "sig"⟩).status =
      (verifyPayment "k" ⟨some "o", some "p", some "sig"⟩).status ∧
    (verifyPayment "k" ⟨some "o", some "p", some "sig"⟩).success =
      (verifyPayment "k" ⟨some "o", some "p", some "sig"⟩).success :=
  verifyPayment_deterministic "k" _ _ rfl rfl rfl

/-- C10: a verify-payment request missing `razorpay_order_id` or
`razorpay_payment_id` is not rejected as malformed: the missing field is
coerced to the string "undefined" in the HMAC input, the request returns
HTTP 200 exactly when the supplied signature matches the digest of the
coerced string, and HTTP 400 otherwise. -/
theorem verifyPayment_missing_ids_coerced (S : String) (o p sig : Option String)
    (_hmiss : o = none ∨ p = none) :
    ((verifyPayment S ⟨o, p, sig⟩).status = 200 ↔
      sig = some (hmacSha256Hex S (jsStr o ++ "|" ++ jsStr p)))
    ∧ (sig ≠ some (hmacSha256Hex S (jsStr o ++ "|" ++ jsStr p)) →
        (verifyPayment S ⟨o, p, sig⟩).status = 400)
    ∧ jsStr none = "undefined" := by
  refine ⟨(verifyPayment_accepts_iff_hmac S ⟨o, p, sig⟩).1, ?_, rfl⟩
  intro hne
  exact ((verifyPayment_accepts_iff_hmac S ⟨o, p, sig⟩).2 hne).1

theorem verifyPayment_missing_ids_coerced_witness :
    (verifyPayment "s3cr3t"
        ⟨none, none,
         some "03e5f585dab7df454e1a10ed014d6cd597a01169faee64b2452f394dd37f5406"⟩).status
      = 200 ∧
    (verifyPayment "s3cr3t" ⟨none, none, some "forged"⟩).status = 400 := by
  refine ⟨(verifyPayment_missing_ids_coerced "s3cr3t" none none _ (Or.inl rfl)).1.mpr
    (by decide), ?_⟩
  exact (verifyPayment_missing_ids_coerced "s3cr3t" none none _ (Or.inl rfl)).2.1 (by decide)

/-! ## Claims about POST /create-order -/

/-- C2: for every positive numeric amount `A` accepted by the create-order
handler (credentials configured), the amount passed to
`razorpay.orders.create` equals `Math.round(A * 100)` — `⌊A·100 + 1/2⌋`,
which is a nearest integer to `A·100`. -/
theorem createOrder_amount_minor_units (env : Env) (now : Nat)
    (gw : GatewayOptions → Except String GatewayOrder) (req : CreateOrderReq)
    (A : ℚ) (hA : req.amount = .num A) (hpos : 0 < A)
    (hk : jsTruthy env.razorpayKeyId = true)
    (hs : jsTruthy env.razorpayKeySecret = true) :
    ∃ opts, (createOrder env now gw req).gatewayCall = some opts ∧
      opts.amount = round (A * 100) ∧
      ∀ z : ℤ, |A * 100 - (opts.amount : ℚ)| ≤ |A * 100 - (z : ℚ)| := by
  have hne : A ≠ 0 := ne_of_gt hpos
  have hnle : ¬ A ≤ 0 := not_le.mpr hpos
  have hbe : req.bodyEmpty = false := by
    unfold CreateOrderReq.bodyEmpty
    rw [hA]
    simp
  unfold createOrder
  cases hgw : gw (GatewayOptions.mk (round (A * 100)) (req.currency.getD "INR")
      (req.receipt.getD ("receipt_" ++ toString now)) req.notes) <;>
    · refine ⟨GatewayOptions.mk (round (A * 100)) (req.currency.getD "INR")
          (req.receipt.getD ("receipt_" ++ toString now)) req.notes,
        ?_, rfl, fun z => round_le (A * 100) z⟩
      simp [hk, hs, hbe, hA, JsAmount.truthy, JsAmount.isNaNB, JsAmount.leZero,
        JsAmount.parseFloatQ, hne, hnle, hgw]

theorem createOrder_amount_minor_units_witness :
    (∃ opts,
      (createOrder ⟨some "rzp_key", some "rzp_secret"⟩ 0
          (fun o => .ok ⟨"order_1", o.amount⟩)
          { amount := .num (49999 / 100 : ℚ) }).gatewayCall = some opts ∧
      opts.amount = round ((49999 / 100 : ℚ) * 100) ∧
      ∀ z : ℤ, |(49999 / 100 : ℚ) * 100 - (opts.amount : ℚ)| ≤
        |(49999 / 100 : ℚ) * 100 - (z : ℚ)|) ∧
    (createOrder ⟨some "rzp_key", some "rzp_secret"⟩ 0
        (fun o => .ok ⟨"order_1", o.amount⟩)
        { amount := .num (49999 / 100 : ℚ) }).gatewayCall =
      some ⟨49999, "INR", "receipt_0", false⟩ := by
  refine ⟨createOrder_amount_minor_units _ 0 _ _ (49999 / 100 : ℚ) rfl (by norm_num)
    (by decide) (by decide), ?_⟩
  have hr : round ((49999 : ℚ) / 100 * 100) = 49999 := by norm_num
  norm_num [createOrder, CreateOrderReq.bodyEmpty, JsAmount.truthy, JsAmount.isNaNB,
    JsAmount.leZero, JsAmount.parseFloatQ, jsTruthy, hr]
  decide

/-- C3: a create-order request whose amount is missing, non-numeric, or not
positive (under a configured environment) yields HTTP 400 and never invokes
the gateway client. -/
theorem createOrder_rejects_invalid_amount (env : Env) (now : Nat)
    (gw : GatewayOptions → Except String GatewayOrder) (req : CreateOrderReq)
    (hk : jsTruthy env.razorpayKeyId = true)
    (hs : jsTruthy env.razorpayKeySecret = true)
    (h : req.amount = .undef ∨ req.amount = .nanStr ∨ req.amount = .emptyStr ∨
         (∃ q, req.amount = .num q ∧ q ≤ 0) ∨
         (∃ nv pf, req.amount = .numStr nv pf ∧ nv ≤ 0)) :
    (createOrder env now gw req).status = 400 ∧
    (createOrder env now gw req).gatewayCall = none := by
  unfold createOrder
  rcases h with h | h | h | ⟨q, h, hq⟩ | ⟨nv, pf, h, hnv⟩
  · cases hbe : req.bodyEmpty <;> simp [hk, hs, hbe, h, JsAmount.truthy]
  · have hbe : req.bodyEmpty = false := by
      unfold CreateOrderReq.bodyEmpty; rw [h]; simp
    simp [hk, hs, hbe, h, JsAmount.truthy, JsAmount.isNaNB]
  · have hbe : req.bodyEmpty = false := by
      unfold CreateOrderReq.bodyEmpty; rw [h]; simp
    simp [hk, hs, hbe, h, JsAmount.truthy]
  · have hbe : req.bodyEmpty = false := by
      unfold CreateOrderReq.bodyEmpty; rw [h]; simp
    by_cases hq0 : q = 0
    · simp [hk, hs, hbe, h, JsAmount.truthy, hq0]
    · simp [hk, hs, hbe, h, JsAmount.truthy, JsAmount.isNaNB, JsAmount.leZero, hq, hq0]
  · have hbe : req.bodyEmpty = false := by
      unfold CreateOrderReq.bodyEmpty; rw [h]; simp
    simp [hk, hs, hbe, h, JsAmount.truthy, JsAmount.isNaNB, JsAmount.leZero, hnv]

theorem createOrder_rejects_invalid_amount_witness :
    (createOrder ⟨some "rzp_key", some "rzp_secret"⟩ 0
        (fun o => .ok ⟨"order_1", o.amount⟩)
        { amount := .num (-5) }).status = 400 ∧
    (createOrder ⟨some "rzp_key", some "rzp_secret"⟩ 0
        (fun o => .ok ⟨"order_1", o.amount⟩)
        { amount := .num (-5) }).gatewayCall = none :=
  createOrder_rejects_invalid_amount _ 0 _ _ (by decide) (by decide)
    (Or.inr (Or.inr (Or.inr (Or.inl ⟨-5, rfl, by norm_num⟩))))

/-- C8: when the gateway key id or key secret is absent from the environment,
the create-order handler itself detects the absence, returns the
configuration-error response (HTTP 500, "Razorpay configuration error") and
never invokes the gateway client. -/
theorem createOrder_missing_credentials (env : Env) (now : Nat)
    (gw : GatewayOptions → Except String GatewayOrder) (req : CreateOrderReq)
    (h : env.razorpayKeyId = none ∨ env.razorpayKeySecret = none) :
    (createOrder env now gw req).status = 500 ∧
    (createOrder env now gw req).message = "Razorpay configuration error" ∧
    (createOrder env now gw req).error = some "Missing credentials" ∧
    (createOrder env now gw req).gatewayCall = none := by
  rcases h with h | h <;> simp [createOrder, h, jsTruthy]

theorem createOrder_missing_credentials_witness :
    (createOrder ⟨none, some "rzp_secret"⟩ 0
        (fun o => .ok ⟨"order_1", o.amount⟩)
        { amount := .num 5 }).status = 500 ∧
    (createOrder ⟨none, some "rzp_secret"⟩ 0
        (fun o => .ok ⟨"order_1", o.amount⟩)
        { amount := .num 5 }).message = "Razorpay configuration error" ∧
    (createOrder ⟨none, some "rzp_secret"⟩ 0
        (fun o => .ok ⟨"order_1", o.amount⟩)
        { amount := .num 5 }).error = some "Missing credentials" ∧
    (createOrder ⟨none, some "rzp_secret"⟩ 0
        (fun o => .ok ⟨"order_1", o.amount⟩)
        { amount := .num 5 }).gatewayCall = none :=
  createOrder_missing_credentials _ 0 _ _ (Or.inl rfl)

/-! ## Claims about POST /agent_to_customer -/

/-- C4 fails on the code: with a customer email present and `orderDetails`
absent, reading `orderDetails.orderNumber` for the email subject raises a
TypeError outside every try/catch, so the error escapes the handler instead
of becoming a JSON error response. -/
theorem agentToCustomer_uncaught_typeError :
    agentToCustomer (some "svc@example.com") (fun _ => .ok "mid-1")
      { customerEmail := some "cust@example.com", orderDetails := none,
        customerDetails := some { firstName := some "Jo" },
        productName := some "Widget", agentName := some "Y" } =
      .error (.typeError "reading orderNumber of undefined orderDetails") := by
  rfl

/-- C4 amended: the create-order and verify-payment handlers always answer
with a JSON response, but the order-confirmation handler lets an error escape
exactly when the customer email is truthy and `orderDetails` or
`customerDetails` is absent; only the email-send failure itself is caught. -/
theorem agentToCustomer_escape_iff (u : Option String)
    (send : MailOptions → MailResult) (req : ConfirmReq) :
    (∃ e, agentToCustomer u send req = .error e) ↔
      (jsTruthy req.customerEmail = true ∧
        (req.orderDetails = none ∨ req.customerDetails = none)) := by
  unfold agentToCustomer
  cases hc : jsTruthy req.customerEmail
  · simp [hc]
  · cases hod : req.orderDetails
    · simp [hod]
    · cases hcd : req.customerDetails
      · simp [hod, hcd]
      · simp only [hod, hcd, Bool.not_true, Bool.false_eq_true, if_false]
        constructor
        · rintro ⟨e, he⟩
          exfalso
          revert he
          split <;> simp
        · rintro ⟨-, h | h⟩ <;> simp_all

/-- C5 fails on the code: the success response of the order-confirmation
handler is a constant that does not depend on the provider's message
identifier — two sends resolving with different message ids produce the
identical response, whose message is the fixed success string. -/
theorem agentToCustomer_response_lacks_messageId :
    agentToCustomer (some "svc@example.com") (fun _ => .ok "provider-message-id-1")
        sampleConfirmReq =
      agentToCustomer (some "svc@example.com") (fun _ => .ok "another-id-2")
        sampleConfirmReq ∧
    (∃ out, agentToCustomer (some "svc@example.com")
        (fun _ => .ok "provider-message-id-1") sampleConfirmReq = .ok out ∧
      out.message = "Confirmation email sent successfully!" ∧
      out.error = none) :=
  ⟨rfl, _, rfl, rfl, rfl⟩

/-- C5 amended: on a successful send the handler returns HTTP 200 with the
fixed success message (the provider's message identifier is only logged, not
returned); on a failed send it returns HTTP 500 with the provider's error
message. -/
theorem agentToCustomer_send_outcomes (u : Option String) (req : ConfirmReq)
    (od : OrderDetails) (cd : CustomerDetails)
    (hod : req.orderDetails = some od) (hcd : req.customerDetails = some cd)
    (he : jsTruthy req.customerEmail = true) :
    (∀ mid, ∃ mo, agentToCustomer u (fun _ => .ok mid) req =
      .ok { status := 200, success := true,
            message := "Confirmation email sent successfully!",
            mailAttempt := some mo }) ∧
    (∀ e, ∃ mo, agentToCustomer u (fun _ => .err e) req =
      .ok { status := 500, success := false,
            message := "Failed to send confirmation email",
            error := some e, mailAttempt := some mo }) := by
  constructor
  · intro mid
    refine ⟨MailOptions.mk u (jsStr req.customerEmail) u
        ("Order Confirmation #" ++ jsStr od.orderNumber)
        (renderConfirmationHtml cd od (resolvedAgentName (some od) req.agentName)
          (jsStr req.productName)), ?_⟩
    simp [agentToCustomer, he, hod, hcd]
  · intro e
    refine ⟨MailOptions.mk u (jsStr req.customerEmail) u
        ("Order Confirmation #" ++ jsStr od.orderNumber)
        (renderConfirmationHtml cd od (resolvedAgentName (some od) req.agentName)
          (jsStr req.productName)), ?_⟩
    simp [agentToCustomer, he, hod, hcd]

theorem agentToCustomer_send_outcomes_witness :
    (∃ mo, agentToCustomer (some "svc@example.com") (fun _ => .ok "mid-1")
        sampleConfirmReq =
      .ok { status := 200, success := true,
            message := "Confirmation email sent successfully!",
            mailAttempt := some mo }) ∧
    (∃ mo, agentToCustomer (some "svc@example.com") (fun _ => .err "SMTP down")
        sampleConfirmReq =
      .ok { status := 500, success := false,
            message := "Failed to send confirmation email",
            error := some "SMTP down", mailAttempt := some mo }) :=
  ⟨(agentToCustomer_send_outcomes _ _ _ _ rfl rfl (by decide)).1 "mid-1",
   (agentToCustomer_send_outcomes _ _ _ _ rfl rfl (by decide)).2 "SMTP down"⟩

/-- C6 fails on the code: agent-name resolution uses JS truthiness, not mere
presence — with `orderDetails.agentName` present but equal to "" and a
top-level agent name "Y", the handler resolves "Y", not the present "". -/
theorem resolvedAgentName_empty_present_skipped :
    resolvedAgentName (some { agentName := some "" }) (some "Y") = "Y" ∧
    ("Y" : String) ≠ "" :=
  ⟨rfl, by decide⟩

/-- C6 amended: the rendered agent name follows truthiness precedence — a
nonempty `orderDetails.agentName` wins, else a nonempty top-level `agentName`,
else the fixed default label "Call Center Agent"; in particular "X" inside
order details beats a top-level "Y". -/
theorem resolvedAgentName_truthy_precedence (od : OrderDetails)
    (top : Option String) :
    (∀ s, od.agentName = some s → s ≠ "" → resolvedAgentName (some od) top = s) ∧
    ((od.agentName = none ∨ od.agentName = some "") →
      ∀ t, top = some t → t ≠ "" → resolvedAgentName (some od) top = t) ∧
    ((od.agentName = none ∨ od.agentName = some "") →
      (top = none ∨ top = some "") →
      resolvedAgentName (some od) top = "Call Center Agent") ∧
    resolvedAgentName (some { agentName := some "X" }) (some "Y") = "X" := by
  refine ⟨?_, ?_, ?_, rfl⟩
  · intro s hs hne
    simp [resolvedAgentName, hs, jsTruthy, jsStr, hne]
  · rintro (h | h) t ht hne <;>
      simp [resolvedAgentName, h, ht, jsTruthy, jsStr, hne]
  · rintro (h | h) (h2 | h2) <;>
      simp [resolvedAgentName, h, h2, jsTruthy, jsStr]

theorem resolvedAgentName_truthy_precedence_witness :
    resolvedAgentName (some { agentName := some "X" }) (some "Y") = "X" ∧
    resolvedAgentName (some { agentName := none }) (some "Y") = "Y" ∧
    resolvedAgentName (some { agentName := none }) none = "Call Center Agent" :=
  ⟨(resolvedAgentName_truthy_precedence _ _).1 "X" rfl (by decide),
   (resolvedAgentName_truthy_precedence _ _).2.1 (Or.inl rfl) "Y" rfl (by decide),
   (resolvedAgentName_truthy_precedence _ _).2.2.1 (Or.inl rfl) (Or.inl rfl)⟩

/-- C7: omitting `customerEmail` from an order-confirmation request yields
HTTP 400 and the email client is never invoked (the response records no mail
attempt). -/
theorem agentToCustomer_requires_email (u : Option String)
    (send : MailOptions → MailResult) (req : ConfirmReq)
    (h : req.customerEmail = none) :
    agentToCustomer u send req =
      .ok { status := 400, success := false,
            message := "Customer email is required" } := by
  simp [agentToCustomer, h, jsTruthy]

theorem agentToCustomer_requires_email_witness :
    agentToCustomer (some "svc@example.com") (fun _ => .ok "mid-1")
        { customerEmail := none, orderDetails := sampleConfirmReq.orderDetails,
          customerDetails := sampleConfirmReq.customerDetails,
          productName := some "Widget", agentName := some "Bob" } =
      .ok { status := 400, success := false,
            message := "Customer email is required" } :=
  agentToCustomer_requires_email _ _ _ rfl
